import Mathlib

/-!
Verification development for the DeepThought agent pipeline.

A shallow embedding of the verified-computation pipeline of the DeepThought
backend (Plan ▸ Execute ▸ Verify ▸ Respond), translated from the Python
sources:

* `backend/src/deepthought/agents/edges/routing.py` (conditional routing),
* `src/deepthought/agents/nodes/execution.py` (step executor),
* `backend/src/deepthought/agents/nodes/verification.py` (result verifier),
* `backend/src/deepthought/agents/nodes/orchestrator.py` (plan generator),
* `backend/src/deepthought/agents/nodes/response.py` (response formatter),
* `src/deepthought/tools/math_ops.py`, `backend/src/deepthought/tools/verification.py`,
  `src/deepthought/tools/formatting.py` (pure tools),
* `backend/src/deepthought/models/agents.py` (data model).

Python numbers (`int | float`) are modelled as exact rationals `ℚ`; Python
`None`/strings/booleans/dicts are modelled by the inductive `Value` type.
Wall-clock durations (`execution_time_ms`, `node_timings`) carry no logic and
are abstracted to `0`; log messages (`messages` lists of the LangGraph state)
are likewise ignored.  Collaborator I/O (the DynamoDB lookup, the LLM call)
is passed in as explicit function parameters; a Python exception raised by a
collaborator or by input validation is modelled with `Except`.
-/

namespace DeepThought

/-- A Python runtime value as it occurs in the pipeline's dictionaries:
`None`, a number (`int | float`, modelled exactly as `ℚ`), a string, a
boolean, or a string-keyed dict (association list; the dicts built by this
code never carry duplicate keys). -/
inductive Value where
  | vnone : Value
  | num (q : ℚ) : Value
  | vstr (s : String) : Value
  | vbool (b : Bool) : Value
  | record (fields : List (String × Value)) : Value
deriving Repr

/-- Python `dict.get(k)`: the value stored under the first occurrence of the
key, if any. -/
def dget (fields : List (String × Value)) (k : String) : Option Value :=
  (fields.find? (fun p => p.1 == k)).map (fun p => p.2)

/-- Models Python `v.get(k)` on a value statically typed as an
optional dict.  (Calling `.get` on a non-dict raises `AttributeError` in
Python; the pipeline only reaches `.get` on dict-or-`None` slots.) -/
def Value.get (v : Value) (k : String) : Option Value :=
  match v with
  | .record fields => dget fields k
  | _ => none

/-- Whether a `Value` is a given string (Python `v == "s"`; cross-type
equality between a non-string and a string is `False` in Python). -/
def Value.eqStr (v : Value) (s : String) : Bool :=
  match v with
  | .vstr t => t == s
  | _ => false

/-- Python truthiness of a value: `None`, `0`, `""`, `False` and `{}` are
falsy, everything else is truthy. -/
def Value.truthy : Value → Bool
  | .vnone => false
  | .num q => decide (q ≠ 0)
  | .vstr s => decide (s ≠ "")
  | .vbool b => b
  | .record fields => !fields.isEmpty

/-- Truthiness of an optional value (`None` when absent). -/
def truthyOpt (v : Option Value) : Bool :=
  match v with
  | none => false
  | some v => v.truthy

/-- The numeric payload of a value, if it is a number.  Used to model the
pydantic validation of `int | float` tool arguments: any non-number input is
rejected with a `ValidationError`. -/
def asNum (v : Value) : Option ℚ :=
  match v with
  | .num q => some q
  | _ => none

/-- The string payload of a value, if it is a string (pydantic `str`
arguments reject non-strings). -/
def asStr (v : Value) : Option String :=
  match v with
  | .vstr s => some s
  | _ => none

/-- Rendering of a number inside a Python f-string.  Integral rationals
render like Python ints; the decimal rendering of non-integral floats is
abstracted by the rational's own textual form. -/
def pyStr (q : ℚ) : String :=
  if q.den = 1 then toString q.num else toString q

/-- Rendering of an arbitrary value inside a Python f-string (only the cases
the pipeline can reach matter; dict rendering is abbreviated). -/
def Value.fstr : Value → String
  | .vnone => "None"
  | .num q => pyStr q
  | .vstr s => s
  | .vbool b => if b then "True" else "False"
  | .record _ => "dict"

/-- Collapses an optional value, mirroring a Python variable that holds
either a value or `None`. -/
def optV (v : Option Value) : Value :=
  match v with
  | none => .vnone
  | some v => v

/-! ## Data model (`backend/src/deepthought/models/agents.py`) -/

/-- The `PlanStepType` enum: the four step kinds the orchestrator can create. -/
inductive PlanStepType where
  | queryDatabase
  | executeFunction
  | verifyResult
  | formatResponse
deriving Repr, DecidableEq

/-- One step of a plan (`PlanStep`). -/
structure PlanStep where
  step_number : Nat
  step_type : PlanStepType
  description : String
  parameters : List (String × Value)
  depends_on : List Nat
deriving Repr

/-- The orchestrator plan (`Plan`).  `created_at` (a wall-clock datetime) is
abstracted to a natural number. -/
structure Plan where
  plan_id : String
  created_at : Nat
  task_description : String
  steps : List PlanStep
  expected_outcome : String
deriving Repr

/-- Result of one tool call (`ToolCallResult`).  `tool_name` is kept as a
`Value` because the execution node records the raw `function` parameter of
the step there.  `execution_time_ms` is abstracted to `0`. -/
structure ToolCallResult where
  tool_name : Value
  input_params : List (String × Value)
  output : Value
  success : Bool
  error_message : Option String
  execution_time_ms : ℚ
deriving Repr

/-- The execution agent result (`ExecutionResult`). -/
structure ExecutionResult where
  plan_id : String
  executed_steps : List Nat
  tool_results : List ToolCallResult
  final_value : Value
  success : Bool
  error_details : Option String
deriving Repr

/-- Status of verification (`VerificationStatus`). -/
inductive VerificationStatus where
  | passed
  | failed
  | skipped
deriving Repr, DecidableEq

/-- The string value of a `VerificationStatus` (it is a Python `str` enum). -/
def VerificationStatus.value : VerificationStatus → String
  | .passed => "passed"
  | .failed => "failed"
  | .skipped => "skipped"

/-- A single verification check (`VerificationCheck`). -/
structure VerificationCheck where
  check_name : String
  expected_value : Value
  actual_value : Value
  status : VerificationStatus
  message : String
deriving Repr

/-- The verification agent result (`VerificationResult`). -/
structure VerificationResult where
  plan_id : String
  checks : List VerificationCheck
  overall_status : VerificationStatus
  confidence_score : ℚ
  reasoning : String
deriving Repr

/-- The response agent output (`FormattedResponse`). -/
structure FormattedResponse where
  success : Bool
  data : List (String × Value)
  metadata : List (String × Value)
  message : String
deriving Repr

/-- The LangGraph `AgentState` (`backend/src/deepthought/agents/state.py`),
restricted to the fields the pipeline logic reads or writes.  The
`messages` history and `node_timings` map carry no control-flow logic and
are omitted. -/
structure AgentState where
  request_id : String
  task_description : String
  input_params : List (String × Value)
  plan : Option Plan
  execution_result : Option ExecutionResult
  verification_result : Option VerificationResult
  formatted_response : Option FormattedResponse
  current_step : String
  error : Option String
  should_retry : Bool
  retry_count : Int
deriving Repr

/-! ## Arithmetic tools (`src/deepthought/tools/math_ops.py`) -/

/-- The `add_values` tool: the sum of the two values. -/
def add_values (val1 val2 : ℚ) : ℚ := val1 + val2

/-- The `subtract_values` tool: the difference of the two values. -/
def subtract_values (val1 val2 : ℚ) : ℚ := val1 - val2

/-- The `multiply_values` tool: the product of the two values. -/
def multiply_values (val1 val2 : ℚ) : ℚ := val1 * val2

/-- The `divide_values` tool: `val1 / val2`, or the sentinel error *string* when
`val2 = 0` (the Python function returns `float | str`). -/
def divide_values (val1 val2 : ℚ) : Value :=
  if val2 = 0 then .vstr "Error: Division by zero is not allowed"
  else .num (val1 / val2)

/-! ## Verification tools (`backend/src/deepthought/tools/verification.py`)

Each tool returns a dict with `is_valid`, `expected`, `actual`, `message`;
we model that dict as the `VerifyOutcome` structure. -/

/-- The dict returned by a verification tool. -/
structure VerifyOutcome where
  is_valid : Bool
  expected : Value
  actual : Value
  message : String
deriving Repr

/-- The `verify_addition` tool: checks `val1 + val2 == result` (exact equality). -/
def verify_addition (val1 val2 result : ℚ) : VerifyOutcome :=
  let expected := val1 + val2
  let is_valid := decide (expected = result)
  { is_valid := is_valid
    expected := .num expected
    actual := .num result
    message :=
      if is_valid then
        "Verification passed: " ++ pyStr val1 ++ " + " ++ pyStr val2 ++ " = " ++ pyStr result
      else
        "Verification failed: " ++ pyStr val1 ++ " + " ++ pyStr val2 ++ " = " ++ pyStr expected
          ++ ", but got " ++ pyStr result }

/-- The `verify_subtraction` tool: checks `val1 - val2 == result` (exact equality). -/
def verify_subtraction (val1 val2 result : ℚ) : VerifyOutcome :=
  let expected := val1 - val2
  let is_valid := decide (expected = result)
  { is_valid := is_valid
    expected := .num expected
    actual := .num result
    message :=
      if is_valid then
        "Verification passed: " ++ pyStr val1 ++ " - " ++ pyStr val2 ++ " = " ++ pyStr result
      else
        "Verification failed: " ++ pyStr val1 ++ " - " ++ pyStr val2 ++ " = " ++ pyStr expected
          ++ ", but got " ++ pyStr result }

/-- The `verify_multiplication` tool: checks `val1 * val2 == result` (exact
equality). -/
def verify_multiplication (val1 val2 result : ℚ) : VerifyOutcome :=
  let expected := val1 * val2
  let is_valid := decide (expected = result)
  { is_valid := is_valid
    expected := .num expected
    actual := .num result
    message :=
      if is_valid then
        "Verification passed: " ++ pyStr val1 ++ " * " ++ pyStr val2 ++ " = " ++ pyStr result
      else
        "Verification failed: " ++ pyStr val1 ++ " * " ++ pyStr val2 ++ " = " ++ pyStr expected
          ++ ", but got " ++ pyStr result }

/-- The `verify_division` tool: division by zero is an unconditional failure with no
expected value; otherwise checks `|val1 / val2 - result| <= tolerance`. -/
def verify_division (val1 val2 result tolerance : ℚ) : VerifyOutcome :=
  if val2 = 0 then
    { is_valid := false
      expected := .vnone
      actual := .num result
      message := "Verification failed: Division by zero is undefined" }
  else
    let expected := val1 / val2
    let is_valid := decide (|expected - result| ≤ tolerance)
    { is_valid := is_valid
      expected := .num expected
      actual := .num result
      message :=
        if is_valid then
          "Verification passed: " ++ pyStr val1 ++ " / " ++ pyStr val2 ++ " = " ++ pyStr result
        else
          "Verification failed: " ++ pyStr val1 ++ " / " ++ pyStr val2 ++ " = " ++ pyStr expected
            ++ ", but got " ++ pyStr result }

/-! ## Execution node (`src/deepthought/agents/nodes/execution.py`)

The DynamoDB lookup collaborator is a parameter `lookup : Value → Value →
Except String (Option Value)`: given the `pk`/`sk` parameters it returns the
item (`.ok (some item)`), an explicit absence (`.ok none`, recorded as
"Item not found"), or raises (`.error msg`). -/

/-- The arithmetic tool resolved from an operation/function name. -/
inductive MathTool where
  | mAdd
  | mSub
  | mMul
  | mDiv
deriving Repr, DecidableEq

/-- The `OPERATION_TO_TOOL` dict lookup: known operation and function names
map to their tool; any other value (including non-strings) yields `None`. -/
def opToolLookup (v : Value) : Option MathTool :=
  match v with
  | .vstr "add" => some .mAdd
  | .vstr "add_values" => some .mAdd
  | .vstr "subtract" => some .mSub
  | .vstr "subtract_values" => some .mSub
  | .vstr "multiply" => some .mMul
  | .vstr "multiply_values" => some .mMul
  | .vstr "divide" => some .mDiv
  | .vstr "divide_values" => some .mDiv
  | _ => none

/-- Models `step.parameters.get(k, default)`. -/
def paramGetD (step : PlanStep) (k : String) (dflt : Value) : Value :=
  match dget step.parameters k with
  | some v => v
  | none => dflt

/-- Models `OPERATION_TO_TOOL.get(operation) or OPERATION_TO_TOOL.get(function_name)`
with the Python defaults `"add"` / `"add_values"` for absent parameters
(a `None` from the first lookup is falsy, so Python's `or` falls through to
the second lookup). -/
def resolveTool (step : PlanStep) : Option MathTool :=
  match opToolLookup (paramGetD step "operation" (.vstr "add")) with
  | some t => some t
  | none => opToolLookup (paramGetD step "function" (.vstr "add_values"))

/-- Applying a resolved arithmetic tool (`divide_values` may return the
sentinel error string). -/
def applyMathTool (t : MathTool) (a b : ℚ) : Value :=
  match t with
  | .mAdd => .num (add_values a b)
  | .mSub => .num (subtract_values a b)
  | .mMul => .num (multiply_values a b)
  | .mDiv => divide_values a b

/-- Character-list prefix test (a computable model of `str.startswith`). -/
def strHasPre : List Char → List Char → Bool
  | [], _ => true
  | _ :: _, [] => false
  | c :: cs, d :: ds => (c == d) && strHasPre cs ds

/-- Models `isinstance(result, str) and result.startswith("Error:")`. -/
def isErrorString (v : Value) : Bool :=
  match v with
  | .vstr s => strHasPre "Error:".toList s.toList
  | _ => false

/-- The string payload of the sentinel (used as the `ValueError` text). -/
def errorText (v : Value) : String :=
  match v with
  | .vstr s => s
  | _ => ""

/-- The execution node's loop state: the accumulated tool results and
executed step numbers, the cached lookup result (`db_item`), the running
`final_value`, and the last-seen `operation` parameter (the Python local of
the same name; it only feeds the final log message). -/
structure ExecAcc where
  tool_results : List ToolCallResult
  executed_steps : List Nat
  db_item : Option Value
  final_value : Value
  operation : Value
deriving Repr

/-- The initial loop state of the execution node. -/
def initExecAcc : ExecAcc :=
  { tool_results := []
    executed_steps := []
    db_item := none
    final_value := .vnone
    operation := .vstr "add" }

/-- One iteration of the execution node's `for step in plan.steps` loop. -/
def execStep (lookup : Value → Value → Except String (Option Value))
    (acc : ExecAcc) (step : PlanStep) : ExecAcc :=
  match step.step_type with
  | .queryDatabase =>
    -- `executed_steps.append(step.step_number)` happens before the query.
    let acc := { acc with executed_steps := acc.executed_steps ++ [step.step_number] }
    match dget step.parameters "pk", dget step.parameters "sk" with
    | some pk, some sk =>
      match lookup pk sk with
      | .ok (some item) =>
        { acc with
          db_item := some item
          tool_results := acc.tool_results ++
            [{ tool_name := .vstr "query_dynamodb"
               input_params := step.parameters
               output := item
               success := true
               error_message := none
               execution_time_ms := 0 }] }
      | .ok none =>
        -- `db_item = result` is assigned even when the item is absent.
        { acc with
          db_item := none
          tool_results := acc.tool_results ++
            [{ tool_name := .vstr "query_dynamodb"
               input_params := step.parameters
               output := .vnone
               success := false
               error_message := some "Item not found"
               execution_time_ms := 0 }] }
      | .error e =>
        { acc with
          tool_results := acc.tool_results ++
            [{ tool_name := .vstr "query_dynamodb"
               input_params := step.parameters
               output := .vnone
               success := false
               error_message := some e
               execution_time_ms := 0 }] }
    | _, _ =>
      -- A missing `pk`/`sk` parameter raises `KeyError` inside the `try`.
      { acc with
        tool_results := acc.tool_results ++
          [{ tool_name := .vstr "query_dynamodb"
             input_params := step.parameters
             output := .vnone
             success := false
             error_message := some "KeyError"
             execution_time_ms := 0 }] }
  | .executeFunction =>
    let operation := paramGetD step "operation" (.vstr "add")
    let function_name := paramGetD step "function" (.vstr "add_values")
    let acc := { acc with operation := operation }
    match resolveTool step with
    | none => acc        -- `if tool and db_item:` — no tool, step is skipped
    | some tool =>
      if truthyOpt acc.db_item then
        let acc := { acc with executed_steps := acc.executed_steps ++ [step.step_number] }
        let val1 := (optV acc.db_item).get "val1"
        let val2 := (optV acc.db_item).get "val2"
        match val1, val2 with
        | some v1, some v2 =>
          match asNum v1, asNum v2 with
          | some a, some b =>
            let result := applyMathTool tool a b
            if isErrorString result then
              -- `raise ValueError(result)`, caught by the `except` clause
              { acc with
                tool_results := acc.tool_results ++
                  [{ tool_name := function_name
                     input_params := [("val1", v1), ("val2", v2)]
                     output := .vnone
                     success := false
                     error_message := some (errorText result)
                     execution_time_ms := 0 }] }
            else
              { acc with
                final_value := result
                tool_results := acc.tool_results ++
                  [{ tool_name := function_name
                     input_params := [("val1", v1), ("val2", v2)]
                     output := result
                     success := true
                     error_message := none
                     execution_time_ms := 0 }] }
          | _, _ =>
            -- pydantic rejects non-numeric `val1`/`val2` (`ValidationError`)
            { acc with
              tool_results := acc.tool_results ++
                [{ tool_name := function_name
                   input_params := [("val1", v1), ("val2", v2)]
                   output := .vnone
                   success := false
                   error_message := some "tool input validation failed"
                   execution_time_ms := 0 }] }
        | _, _ =>
          -- `raise ValueError("val1 or val2 not found in database item")`
          { acc with
            tool_results := acc.tool_results ++
              [{ tool_name := function_name
                 input_params := [("val1", optV val1), ("val2", optV val2)]
                 output := .vnone
                 success := false
                 error_message := some "val1 or val2 not found in database item"
                 execution_time_ms := 0 }] }
      else acc           -- `if tool and db_item:` — no cached item, skipped
  | .verifyResult => acc     -- not executed by the execution node
  | .formatResponse => acc   -- not executed by the execution node

/-- The execution node's loop over the plan's steps, in plan order. -/
def runSteps (lookup : Value → Value → Except String (Option Value)) :
    List PlanStep → ExecAcc → ExecAcc
  | [], acc => acc
  | step :: rest, acc => runSteps lookup rest (execStep lookup acc step)

/-- The `ExecutionResult` the execution node builds from a plan:
`success` is true iff every tool call succeeded and at least one ran. -/
def execution_node_result (lookup : Value → Value → Except String (Option Value))
    (plan : Plan) : ExecutionResult :=
  let acc := runSteps lookup plan.steps initExecAcc
  { plan_id := plan.plan_id
    executed_steps := acc.executed_steps
    tool_results := acc.tool_results
    final_value := acc.final_value
    success := acc.tool_results.all (fun tr => tr.success)
      && decide (0 < acc.tool_results.length)
    error_details := none }

/-- The execution node as a LangGraph state transformer: the returned
partial update (`execution_result`, `current_step`, and — only on the
missing-plan path — `error`) is merged into the state; every other field,
in particular `retry_count`, is left untouched. -/
def execution_node (lookup : Value → Value → Except String (Option Value))
    (s : AgentState) : AgentState :=
  match s.plan with
  | none =>
    { s with
      execution_result := none
      error := some "No plan available for execution"
      current_step := "execution_failed" }
  | some plan =>
    { s with
      execution_result := some (execution_node_result lookup plan)
      current_step := "execution_complete" }

/-! ## Routing (`backend/src/deepthought/agents/edges/routing.py`) -/

/-- The targets of `route_after_execution`. -/
inductive ExecRoute where
  | verification
  | retry
  | error
deriving Repr, DecidableEq

/-- The router `route_after_execution`: to verification on success, to retry on failure
while `retry_count < 3`, otherwise to the error path; missing execution
result routes to the error path. -/
def route_after_execution (s : AgentState) : ExecRoute :=
  match s.execution_result with
  | none => .error
  | some er =>
    if !er.success then
      if s.retry_count < 3 then .retry else .error
    else .verification

/-- The targets of `route_after_verification`. -/
inductive VerifRoute where
  | response
  | retry_execution
  | error
deriving Repr, DecidableEq

/-- The router `route_after_verification`: to response unless verification failed; a
failure retries execution while `retry_count < 2`, else the error path. -/
def route_after_verification (s : AgentState) : VerifRoute :=
  match s.verification_result with
  | none => .error
  | some vr =>
    if vr.overall_status = .failed then
      if s.retry_count < 2 then .retry_execution else .error
    else .response

/-! ## Verification node (`backend/src/deepthought/agents/nodes/verification.py`) -/

/-- The verification tool resolved from an operation name. -/
inductive VerifyTool where
  | vAdd
  | vSub
  | vMul
  | vDiv
deriving Repr, DecidableEq

/-- The `OPERATION_TO_VERIFY_TOOL` dict lookup. -/
def opVerifyLookup (v : Value) : Option VerifyTool :=
  match v with
  | .vstr "add" => some .vAdd
  | .vstr "add_values" => some .vAdd
  | .vstr "subtract" => some .vSub
  | .vstr "subtract_values" => some .vSub
  | .vstr "multiply" => some .vMul
  | .vstr "multiply_values" => some .vMul
  | .vstr "divide" => some .vDiv
  | .vstr "divide_values" => some .vDiv
  | _ => none

/-- Invoking a verification tool through its pydantic schema: non-numeric
`val1`/`val2`/`result` raise a `ValidationError` (modelled as `.error`).
`verify_division` takes the tolerance; the other tools ignore it.  Both call
sites of the verification node use the tolerance `1e-9` (one passes it
explicitly, the other relies on the schema default of the same value). -/
def invokeVerifyTool (t : VerifyTool) (val1 val2 result : Value) (tolerance : ℚ) :
    Except String VerifyOutcome :=
  match asNum val1, asNum val2, asNum result with
  | some a, some b, some r =>
    .ok (match t with
      | .vAdd => verify_addition a b r
      | .vSub => verify_subtraction a b r
      | .vMul => verify_multiplication a b r
      | .vDiv => verify_division a b r tolerance)
  | _, _, _ => .error "tool input validation failed"

/-- The scan over `execution_result.tool_results` shared (as duplicated
code) by the verification and response nodes: the output of the *last*
successful `query_dynamodb` call, the output of the *last* successful
arithmetic call, and the operation name derived from that call's tool name
(initially `"add"`). -/
def resultScan (trs : List ToolCallResult) : Option Value × Option Value × Value :=
  trs.foldl
    (fun acc tr =>
      if tr.tool_name.eqStr "query_dynamodb" && tr.success then
        (some tr.output, acc.2.1, acc.2.2)
      else if (tr.tool_name.eqStr "add_values" || tr.tool_name.eqStr "subtract_values"
          || tr.tool_name.eqStr "multiply_values" || tr.tool_name.eqStr "divide_values")
          && tr.success then
        (acc.1, some tr.output,
          if tr.tool_name.eqStr "add_values" then .vstr "add"
          else if tr.tool_name.eqStr "subtract_values" then .vstr "subtract"
          else if tr.tool_name.eqStr "multiply_values" then .vstr "multiply"
          else .vstr "divide")
      else acc)
    (none, none, Value.vstr "add")

/-- The `for step in plan.steps` loop that follows the scan in both the
verification and response nodes: the first plan step whose `operation`
parameter is truthy *overrides* the operation derived from the tool
results (the loop is not guarded on the tool-derived operation being
absent). -/
def planOperationOverride (steps : List PlanStep) (op : Value) : Value :=
  match steps.find? (fun s => truthyOpt (dget s.parameters "operation")) with
  | some s => optV (dget s.parameters "operation")
  | none => op

/-- The partial state update returned by the verification node. -/
structure VerificationUpdate where
  verification_result : Option VerificationResult
  error : Option String
  current_step : String
deriving Repr

/-- The verification node. -/
def verification_node (execution_result : Option ExecutionResult)
    (plan : Option Plan) : VerificationUpdate :=
  match execution_result, plan with
  | some er, some p =>
    let scan := resultScan er.tool_results
    let db_result := scan.1
    let calc_result := scan.2.1
    let operation := planOperationOverride p.steps scan.2.2
    let checks : List VerificationCheck :=
      if truthyOpt db_result && calc_result.isSome then
        let val1 := (optV db_result).get "val1"
        let val2 := (optV db_result).get "val2"
        if val1.isSome && val2.isSome then
          let verify_tool :=
            match opVerifyLookup operation with
            | some t => t
            | none => .vAdd      -- `.get(operation, verify_addition)`
          let first :=
            match invokeVerifyTool verify_tool (optV val1) (optV val2)
                (optV calc_result) (1 / 1000000000) with
            | .ok vo =>
              { check_name := operation.fstr ++ "_correctness"
                expected_value := vo.expected
                actual_value := optV calc_result
                status := if vo.is_valid then .passed else .failed
                message := vo.message : VerificationCheck }
            | .error e =>
              { check_name := operation.fstr ++ "_correctness"
                expected_value := .vstr "verification"
                actual_value := .vstr "error"
                status := .failed
                message := "Verification failed: " ++ e }
          let typeCheck : VerificationCheck :=
            { check_name := "type_consistency"
              expected_value := .vstr "number"
              -- the runtime type name of the result; `ℚ` abstracts the
              -- Python `int`/`float` distinction by the denominator
              actual_value := .vstr (match optV calc_result with
                | .num q => if q.den = 1 then "int" else "float"
                | _ => "object")
              status := .passed
              message := "Result type is valid" }
          [first, typeCheck]
        else []   -- no check is appended when `val1`/`val2` are missing
      else
        [{ check_name := "data_availability"
           expected_value := .vstr "complete data"
           actual_value := .vstr "missing data"
           status := .failed
           message := "Required data not available for verification" }]
    let all_passed := checks.all (fun c => decide (c.status = .passed))
    let overall := if all_passed then VerificationStatus.passed else .failed
    { verification_result := some
        { plan_id := p.plan_id
          checks := checks
          overall_status := overall
          confidence_score := if all_passed then 1 else 0
          reasoning :=
            if all_passed then "All " ++ operation.fstr ++ " checks passed"
            else "One or more checks failed" }
      error := none
      current_step := "verification_complete" }
  | _, _ =>
    { verification_result := none
      error := some "Missing execution result or plan for verification"
      current_step := "verification_failed" }

/-! ## Orchestrator node (`backend/src/deepthought/agents/nodes/orchestrator.py`) -/

/-- The `OPERATION_TO_FUNCTION` dict lookup. -/
def opFunctionLookup (v : Value) : Option String :=
  match v with
  | .vstr "add" => some "add_values"
  | .vstr "subtract" => some "subtract_values"
  | .vstr "multiply" => some "multiply_values"
  | .vstr "divide" => some "divide_values"
  | _ => none

/-- The builder `_create_fallback_plan`: the deterministic four-step plan built from the
request's own input parameters.  Indexing `input_params["partition_key"]` /
`["sort_key"]` raises `KeyError` when absent (modelled as `.error`); the
request contexts built by the API routes always provide both keys. -/
def create_fallback_plan (s : AgentState) : Except String Plan :=
  match dget s.input_params "partition_key", dget s.input_params "sort_key" with
  | some pk, some sk =>
    let operation :=
      match dget s.input_params "operation" with
      | some v => v
      | none => .vstr "add"
    let function_name :=
      match opFunctionLookup operation with
      | some f => f
      | none => "add_values"
    .ok
      { plan_id := s.request_id
        created_at := 0
        task_description := s.task_description
        steps :=
          [{ step_number := 1
             step_type := .queryDatabase
             description := "Query DynamoDB to retrieve calculation item"
             parameters := [("pk", pk), ("sk", sk)]
             depends_on := [] },
           { step_number := 2
             step_type := .executeFunction
             description := "Perform " ++ operation.fstr ++ " operation on val1 and val2"
             parameters := [("function", .vstr function_name), ("operation", operation)]
             depends_on := [1] },
           { step_number := 3
             step_type := .verifyResult
             description := "Verify the " ++ operation.fstr ++ " result is correct"
             parameters := [("operation", operation)]
             depends_on := [1, 2] },
           { step_number := 4
             step_type := .formatResponse
             description := "Format verified result into JSON response"
             parameters := [("operation", operation)]
             depends_on := [3] }]
        expected_outcome := "Structured JSON with val1, val2, " ++ operation.fstr
          ++ " result, and verification status" }
  | _, _ => .error "KeyError"

/-- The partial state update returned by the orchestrator node. -/
structure OrchestratorUpdate where
  plan : Option Plan
  current_step : String
deriving Repr

/-- The orchestrator node.  The whole primary path — the LLM call and
`_parse_llm_plan` — sits inside one `try`; its outcome is the parameter
`attempt` (`.ok plan` when the LLM responded and its output parsed,
`.error e` for any I/O failure or parse failure).  Every failure falls back
to `_create_fallback_plan`; an exception raised inside the `except` block
itself (the `KeyError` above) propagates. -/
def orchestrator_node (attempt : Except String Plan) (s : AgentState) :
    Except String OrchestratorUpdate :=
  match attempt with
  | .ok plan => .ok { plan := some plan, current_step := "orchestrator_complete" }
  | .error _ =>
    match create_fallback_plan s with
    | .ok plan => .ok { plan := some plan, current_step := "orchestrator_complete" }
    | .error e => .error e

/-! ## Formatting tool (`src/deepthought/tools/formatting.py`) -/

/-- The `format_json` tool: the structured response dict.  Note that the
`operation_symbols` dict maps only `add`, `multiply` and `divide`;
`.get(operation, operation)` falls back to the operation name itself for
any other operation — in particular for `subtract`. -/
def format_json (val1 val2 result : ℚ) (operation : String)
    (verification_passed : Bool) (verification_message : String) : Value :=
  let symbol :=
    match operation with
    | "add" => "+"
    | "multiply" => "*"
    | "divide" => "/"
    | op => op
  .record
    [("success", .vbool verification_passed),
     ("calculation", .record
       [("val1", .num val1),
        ("val2", .num val2),
        ("operation", .vstr operation),
        ("result", .num result),
        ("expression", .vstr (pyStr val1 ++ " " ++ symbol ++ " " ++ pyStr val2
          ++ " = " ++ pyStr result))]),
     ("verification", .record
       [("passed", .vbool verification_passed),
        ("status", .vstr (if verification_passed then "passed" else "failed")),
        ("message", .vstr verification_message)])]

/-- Invoking `format_json` through its pydantic schema: `val1`, `val2` and
`result` must be numbers and `operation` a string, otherwise the `.invoke`
raises a `ValidationError` (modelled as `.error`). -/
def invokeFormatJson (val1 val2 result operation : Value)
    (verification_passed : Bool) (verification_message : String) :
    Except String Value :=
  match asNum val1, asNum val2, asNum result, asStr operation with
  | some a, some b, some r, some op =>
    .ok (format_json a b r op verification_passed verification_message)
  | _, _, _, _ => .error "tool input validation failed"

/-! ## Response node (`backend/src/deepthought/agents/nodes/response.py`) -/

/-- Python `str.capitalize()`: first character upper-cased, the rest
lower-cased. -/
def pyCapitalize (s : String) : String :=
  (s.take 1).toUpper ++ (s.drop 1).toLower

/-- The partial state update returned by the response node. -/
structure ResponseUpdate where
  formatted_response : FormattedResponse
  current_step : String
deriving Repr

/-- The response node.  The result is `Except` because the final message
interpolates `operation.capitalize()` outside any `try`: when the resolved
operation is not a string (possible only through a plan step parameter
injected by the LLM) the node raises `AttributeError` and no response is
produced. -/
def response_node (request_id : String) (plan : Option Plan)
    (execution_result : Option ExecutionResult)
    (verification_result : Option VerificationResult)
    (error : Option String) : Except String ResponseUpdate :=
  match error with
  | some e =>
    .ok { formatted_response :=
            { success := false
              data := []
              metadata := [("request_id", .vstr request_id)]
              message := "Error: " ++ e }
          current_step := "complete" }
  | none =>
    match execution_result, verification_result, plan with
    | some er, some vr, some p =>
      let scan := resultScan er.tool_results
      let db_result := scan.1
      let calc_result := scan.2.1
      let operation := planOperationOverride p.steps scan.2.2
      let is_success := decide (vr.overall_status = .passed)
      let verification_message :=
        match vr.checks with
        | [] => vr.reasoning
        | c :: _ => c.message
      -- `val1 = db_result.get("val1") if db_result else None`
      let val1 := if truthyOpt db_result then (optV db_result).get "val1" else none
      let val2 := if truthyOpt db_result then (optV db_result).get "val2" else none
      let data :=
        if val1.isSome && val2.isSome && calc_result.isSome then
          match invokeFormatJson (optV val1) (optV val2) (optV calc_result)
              operation is_success verification_message with
          | .ok tool_result =>
            let expression :=
              match ((optV (tool_result.get "calculation")).get "expression") with
              | some e => e
              | none =>
                -- the `.get` default f-string (unreachable: `format_json`
                -- always emits the `expression` key)
                .vstr ((optV val1).fstr ++ " " ++ operation.fstr ++ " "
                  ++ (optV val2).fstr ++ " = " ++ (optV calc_result).fstr)
            [("val1", optV val1), ("val2", optV val2),
             ("result", optV calc_result), ("operation", operation),
             ("expression", expression),
             ("verification_status", .vstr vr.overall_status.value)]
          | .error _ =>
            -- `except` fallback: the five-key data dict
            [("val1", optV val1), ("val2", optV val2),
             ("result", optV calc_result), ("operation", operation),
             ("verification_status", .vstr vr.overall_status.value)]
        else
          [("val1", optV val1), ("val2", optV val2),
           ("result", optV calc_result), ("operation", operation),
           ("verification_status", .vstr vr.overall_status.value)]
      match asStr operation with
      | none => .error "AttributeError: capitalize"
      | some opStr =>
        .ok { formatted_response :=
                { success := is_success
                  data := data
                  metadata :=
                    [("request_id", .vstr request_id),
                     ("plan_id", .vstr p.plan_id),
                     ("steps_executed", .num er.tool_results.length),
                     ("verification_confidence", .num vr.confidence_score),
                     ("verification_checks", .num vr.checks.length)]
                  message :=
                    pyCapitalize opStr ++
                      (if is_success then " completed successfully"
                       else " completed with verification failures") }
              current_step := "complete" }
    | _, _, _ =>
      .ok { formatted_response :=
              { success := false
                data := []
                metadata := [("request_id", .vstr request_id)]
                message := "Incomplete execution - missing required data" }
            current_step := "complete" }

/-! ## Canonical scenarios

Tool-call results shaped exactly like the ones the execution node records on
the happy path, used to state the verification-stage claims. -/

/-- A successful `query_dynamodb` tool result whose item holds the operand
pair. -/
def queryTCR (a b : ℚ) : ToolCallResult :=
  { tool_name := .vstr "query_dynamodb"
    input_params := [("pk", .vstr "PAIR#1"), ("sk", .vstr "DIRECT")]
    output := .record [("val1", .num a), ("val2", .num b)]
    success := true
    error_message := none
    execution_time_ms := 0 }

/-- A successful arithmetic tool result recording `tname` as tool name and
`r` as output. -/
def arithTCR (tname : String) (a b r : ℚ) : ToolCallResult :=
  { tool_name := .vstr tname
    input_params := [("val1", .num a), ("val2", .num b)]
    output := .num r
    success := true
    error_message := none
    execution_time_ms := 0 }

/-- An `ExecutionResult` holding a successful lookup of the pair `(a, b)`
and a successful arithmetic call (named `tname`) that recorded `r`. -/
def calcExecutionResult (tname : String) (a b r : ℚ) : ExecutionResult :=
  { plan_id := "plan-1"
    executed_steps := [1, 2]
    tool_results := [queryTCR a b, arithTCR tname a b r]
    final_value := .num r
    success := true
    error_details := none }

/-- A plan with no steps — in particular, no step carries an `operation`
parameter, so the operation the verifier resolves is the one derived from
the tool results. -/
def emptyPlan : Plan :=
  { plan_id := "plan-1"
    created_at := 0
    task_description := "Perform operation"
    steps := []
    expected_outcome := "result" }

/-! ## Scenario fixtures used by the claim theorems -/

/-- An `ExecuteOperation` plan step that declares the operation `divide`
(while naming `multiply_values` as the function to run). -/
def divideStep : PlanStep :=
  { step_number := 2
    step_type := .executeFunction
    description := "Perform divide operation on val1 and val2"
    parameters := [("function", .vstr "multiply_values"), ("operation", .vstr "divide")]
    depends_on := [1] }

/-- A plan whose only step declares the operation `divide`. -/
def planDeclaringDivide : Plan :=
  { plan_id := "plan-1"
    created_at := 0
    task_description := "Perform operation"
    steps := [divideStep]
    expected_outcome := "result" }

/-- The loop state for the C3 witness: a cached lookup item with a zero
`val2`. -/
def c3acc : ExecAcc :=
  { tool_results := []
    executed_steps := [1]
    db_item := some (.record [("val1", .num 10), ("val2", .num 0)])
    final_value := .vnone
    operation := .vstr "add" }

/-- The divide step for the C3 witness. -/
def c3step : PlanStep :=
  { step_number := 2
    step_type := .executeFunction
    description := "Perform divide operation on val1 and val2"
    parameters := [("operation", .vstr "divide")]
    depends_on := [1] }

/-- The lookup collaborator for the C9/C10 scenario: every key resolves to
the item `{val1: 3, val2: 4}`. -/
def c9lookup : Value → Value → Except String (Option Value) :=
  fun _ _ => .ok (some (.record [("val1", .num 3), ("val2", .num 4)]))

/-- A two-step plan whose `ExecuteOperation` step names an operation and a
function that the tool registry does not know. -/
def c9plan : Plan :=
  { plan_id := "plan-9"
    created_at := 0
    task_description := "Perform modulo"
    steps :=
      [{ step_number := 1
         step_type := .queryDatabase
         description := "Query DynamoDB to retrieve calculation item"
         parameters := [("pk", .vstr "PAIR#1"), ("sk", .vstr "DIRECT")]
         depends_on := [] },
       { step_number := 2
         step_type := .executeFunction
         description := "Perform modulo operation on val1 and val2"
         parameters := [("operation", .vstr "modulo"), ("function", .vstr "mod_values")]
         depends_on := [1] }]
    expected_outcome := "result" }

/-- The request state for the C6 witness: a `multiply` request carrying its
own partition and sort keys. -/
def c6state : AgentState :=
  { request_id := "req-6"
    task_description := "Perform multiply on val1=42 and val2=58"
    input_params :=
      [("val1", .num 42), ("val2", .num 58), ("operation", .vstr "multiply"),
       ("partition_key", .vstr "PAIR#abc"), ("sort_key", .vstr "DIRECT")]
    plan := none
    execution_result := none
    verification_result := none
    formatted_response := none
    current_step := "start"
    error := none
    should_retry := false
    retry_count := 0 }

/-- A concrete passed verification result for the C7 witness. -/
def c7vr : VerificationResult :=
  { plan_id := "plan-1"
    checks := []
    overall_status := .passed
    confidence_score := 1
    reasoning := "All add checks passed" }

/-- The lookup collaborator for the C1 witness: DynamoDB raises on every
call, so every execution attempt fails. -/
def c1lookup : Value → Value → Except String (Option Value) :=
  fun _ _ => .error "DynamoDB unavailable"

/-- The initial state for the C1 witness: a plan is present, the counter
starts at `0`. -/
def c1state : AgentState :=
  { request_id := "req-1"
    task_description := "Perform add on val1 and val2"
    input_params :=
      [("val1", .num 3), ("val2", .num 4), ("operation", .vstr "add"),
       ("partition_key", .vstr "PAIR#1"), ("sort_key", .vstr "DIRECT")]
    plan := some c9plan
    execution_result := none
    verification_result := none
    formatted_response := none
    current_step := "orchestrator_complete"
    error := none
    should_retry := false
    retry_count := 0 }

/-- The state after the `(n+1)`-st traversal of the `Execute → Execute`
retry edge: the router sends a failed execution straight back into the
execution node, with no other node in between. -/
def retryLoopState (lookup : Value → Value → Except String (Option Value))
    (s0 : AgentState) : Nat → AgentState
  | 0 => execution_node lookup s0
  | n + 1 => execution_node lookup (retryLoopState lookup s0 n)

/-! ## Claims about the verification stage -/

/-- C4: for all rational operands and each of the three exact operations,
verifying an `ExecutionResult` whose recorded result equals `val1 op val2`
yields overall `passed` with confidence exactly `1`, a differing recorded
result yields `failed` with confidence exactly `0`, and — for every input
whatsoever — the confidence score the verification node produces is `0` or
`1` and nothing else. -/
theorem C4_exact_ops_binary_confidence :
    (∀ er p vr, (verification_node er p).verification_result = some vr →
      vr.confidence_score = 0 ∨ vr.confidence_score = 1) ∧
    (∀ a b r : ℚ,
      ((r = a + b →
          (verification_node (some (calcExecutionResult "add_values" a b r))
            (some emptyPlan)).verification_result.map
              (fun vr => (vr.overall_status, vr.confidence_score))
            = some (.passed, 1)) ∧
        (r ≠ a + b →
          (verification_node (some (calcExecutionResult "add_values" a b r))
            (some emptyPlan)).verification_result.map
              (fun vr => (vr.overall_status, vr.confidence_score))
            = some (.failed, 0))) ∧
      ((r = a - b →
          (verification_node (some (calcExecutionResult "subtract_values" a b r))
            (some emptyPlan)).verification_result.map
              (fun vr => (vr.overall_status, vr.confidence_score))
            = some (.passed, 1)) ∧
        (r ≠ a - b →
          (verification_node (some (calcExecutionResult "subtract_values" a b r))
            (some emptyPlan)).verification_result.map
              (fun vr => (vr.overall_status, vr.confidence_score))
            = some (.failed, 0))) ∧
      ((r = a * b →
          (verification_node (some (calcExecutionResult "multiply_values" a b r))
            (some emptyPlan)).verification_result.map
              (fun vr => (vr.overall_status, vr.confidence_score))
            = some (.passed, 1)) ∧
        (r ≠ a * b →
          (verification_node (some (calcExecutionResult "multiply_values" a b r))
            (some emptyPlan)).verification_result.map
              (fun vr => (vr.overall_status, vr.confidence_score))
            = some (.failed, 0)))) := by
  constructor
  · intro er p vr h
    match er, p with
    | none, _ => simp [verification_node] at h
    | some er, none => simp [verification_node] at h
    | some er, some p =>
      simp only [verification_node] at h
      injection h with h
      subst h
      dsimp only
      exact Or.symm (ite_eq_or_eq _ 1 0)
  · intro a b r
    refine ⟨⟨?_, ?_⟩, ⟨?_, ?_⟩, ⟨?_, ?_⟩⟩ <;> intro h <;>
      simp [verification_node, calcExecutionResult, queryTCR, arithTCR, emptyPlan,
        resultScan, planOperationOverride, Value.eqStr, truthyOpt, Value.truthy,
        optV, Value.get, dget, List.find?, opVerifyLookup, invokeVerifyTool, asNum,
        verify_addition, verify_subtraction, verify_multiplication, Value.fstr, h] <;>
      exact fun hh => h hh.symm

/-- C4 witness: the theorem applied at `val1 = 42`, `val2 = 58`, recorded
result `100 = 42 + 58`. -/
theorem C4_exact_ops_binary_confidence_witness :
    (verification_node (some (calcExecutionResult "add_values" 42 58 100))
      (some emptyPlan)).verification_result.map
        (fun vr => (vr.overall_status, vr.confidence_score))
      = some (.passed, 1) :=
  (C4_exact_ops_binary_confidence.2 42 58 100).1.1 (by norm_num)

/-- C5: for `divide` with a non-zero divisor, the division-correctness
check passes iff the recomputed quotient is within `1e-9` of the recorded
result; with divisor `0` the check is always failed and carries no expected
value. -/
theorem C5_divide_tolerance :
    ∀ a b r : ℚ,
    (b ≠ 0 →
      (verification_node (some (calcExecutionResult "divide_values" a b r))
        (some emptyPlan)).verification_result.map
          (fun vr => vr.checks.head?.map fun c => (c.check_name, c.status))
        = some (some ("divide_correctness",
            if |a / b - r| ≤ 1 / 1000000000 then
              VerificationStatus.passed
            else VerificationStatus.failed))) ∧
    (b = 0 →
      (verification_node (some (calcExecutionResult "divide_values" a b r))
        (some emptyPlan)).verification_result.map
          (fun vr => vr.checks.head?.map fun c =>
            (c.check_name, c.expected_value, c.status))
        = some (some ("divide_correctness", Value.vnone,
            VerificationStatus.failed))) := by
  intro a b r
  constructor <;> intro h <;>
    simp [verification_node, calcExecutionResult, queryTCR, arithTCR, emptyPlan,
      resultScan, planOperationOverride, Value.eqStr, truthyOpt, Value.truthy,
      optV, Value.get, dget, List.find?, opVerifyLookup, invokeVerifyTool, asNum,
      verify_division, Value.fstr, h]

/-- C5 witness: `7.5 / 2.5 = 3` passes within tolerance, and divisor `0`
gives a failed check with no expected value. -/
theorem C5_divide_tolerance_witness :
    (verification_node (some (calcExecutionResult "divide_values" (15 / 2) (5 / 2) 3))
      (some emptyPlan)).verification_result.map
        (fun vr => vr.checks.head?.map fun c => (c.check_name, c.status))
      = some (some ("divide_correctness", VerificationStatus.passed)) ∧
    (verification_node (some (calcExecutionResult "divide_values" 10 0 100))
      (some emptyPlan)).verification_result.map
        (fun vr => vr.checks.head?.map fun c =>
          (c.check_name, c.expected_value, c.status))
      = some (some ("divide_correctness", Value.vnone,
          VerificationStatus.failed)) := by
  constructor
  · have h := (C5_divide_tolerance (15 / 2) (5 / 2) 3).1 (by norm_num)
    rw [h]
    norm_num
  · exact (C5_divide_tolerance 10 0 100).2 rfl

/-- C2 counterexample: the successful arithmetic `ToolCallResult` records
`multiply_values` (and `6 * 2 = 12` would verify), yet the node verifies
against the plan-declared operation `divide` and fails — the plan
declaration is *not* merely a fallback for a missing tool result. -/
theorem C2_counterexample_plan_wins :
    (verification_node (some (calcExecutionResult "multiply_values" 6 2 12))
      (some planDeclaringDivide)).verification_result.map
        (fun vr => (vr.checks.map fun c => (c.check_name, c.status),
          vr.overall_status))
      = some ([("divide_correctness", VerificationStatus.failed),
          ("type_consistency", VerificationStatus.passed)],
          VerificationStatus.failed) ∧
    (verify_multiplication 6 2 12).is_valid = true := by
  have h : ∀ a b r : ℚ, b ≠ 0 → ¬(|a / b - r| ≤ 1 / 1000000000) →
      (verification_node (some (calcExecutionResult "multiply_values" a b r))
        (some planDeclaringDivide)).verification_result.map
          (fun vr => (vr.checks.map fun c => (c.check_name, c.status),
            vr.overall_status))
        = some ([("divide_correctness", VerificationStatus.failed),
            ("type_consistency", VerificationStatus.passed)],
            VerificationStatus.failed) := by
    intro a b r hb habs
    simp [verification_node, calcExecutionResult, queryTCR, arithTCR,
      planDeclaringDivide, divideStep, resultScan, planOperationOverride,
      Value.eqStr, truthyOpt, Value.truthy, optV, Value.get, dget, List.find?,
      opVerifyLookup, invokeVerifyTool, asNum, verify_division, Value.fstr,
      hb, habs]
    rw [one_div] at habs
    exact lt_of_not_ge habs
  have h2 : ∀ a b r : ℚ, r = a * b → (verify_multiplication a b r).is_valid = true := by
    intro a b r hr
    simp [verify_multiplication, hr]
  exact ⟨h 6 2 12 (by norm_num) (by norm_num), h2 6 2 12 (by norm_num)⟩

/-- C2 (amended): the operation the verification node verifies against is
the tool-derived operation *overridden* by the first plan step whose
`operation` parameter is truthy, whenever such a step exists; the operation
recorded on the successful arithmetic tool result is used only when no plan
step declares one, and the scan's default is `add`. -/
theorem C2_operation_resolution :
    (∀ (steps : List PlanStep) (op : Value) (s : PlanStep),
      steps.find? (fun s => truthyOpt (dget s.parameters "operation")) = some s →
      planOperationOverride steps op = optV (dget s.parameters "operation")) ∧
    (∀ (steps : List PlanStep) (op : Value),
      steps.find? (fun s => truthyOpt (dget s.parameters "operation")) = none →
      planOperationOverride steps op = op) ∧
    (∀ er p vr, (verification_node (some er) (some p)).verification_result = some vr →
      ∀ c, vr.checks.head? = some c →
        c.check_name = "data_availability" ∨
        c.check_name =
          (planOperationOverride p.steps (resultScan er.tool_results).2.2).fstr
            ++ "_correctness") ∧
    resultScan [] = (none, none, Value.vstr "add") := by
  refine ⟨?_, ?_, ?_, rfl⟩
  · intro steps op s h
    unfold planOperationOverride
    rw [h]
  · intro steps op h
    unfold planOperationOverride
    rw [h]
  · intro er p vr h c hc
    simp only [verification_node] at h
    injection h with h
    subst h
    dsimp only at hc
    split at hc
    · split at hc
      · dsimp only [List.head?] at hc
        split at hc <;>
          · injection hc with hc
            subst hc
            exact Or.inr rfl
      · simp at hc
    · dsimp only [List.head?] at hc
      injection hc with hc
      subst hc
      exact Or.inl rfl

/-- C2 amended witness: on the counterexample plan, the override resolves
`divide` even though the tool-derived operation is `multiply`; with no
declaring step the tool-derived operation survives. -/
theorem C2_operation_resolution_witness :
    planOperationOverride planDeclaringDivide.steps (.vstr "multiply")
      = .vstr "divide" ∧
    planOperationOverride ([] : List PlanStep) (.vstr "multiply")
      = .vstr "multiply" :=
  ⟨C2_operation_resolution.1 planDeclaringDivide.steps (.vstr "multiply")
      divideStep rfl,
    C2_operation_resolution.2.1 [] (.vstr "multiply") rfl⟩

/-! ## Claims about the execution stage -/

/-- C3: an `ExecuteOperation` step that resolves to the divide tool, run
against a cached lookup item whose `val2` is `0`, appends exactly one
*failed* `ToolCallResult` carrying the divide error message — never a
successful result holding the sentinel string — and leaves `final_value`
untouched. -/
theorem C3_divide_by_zero_records_failure :
    ∀ (lookup : Value → Value → Except String (Option Value))
      (acc : ExecAcc) (step : PlanStep) (rf : List (String × Value)) (a : ℚ),
    step.step_type = .executeFunction →
    resolveTool step = some .mDiv →
    acc.db_item = some (.record rf) →
    dget rf "val1" = some (.num a) →
    dget rf "val2" = some (.num 0) →
    (execStep lookup acc step).tool_results
      = acc.tool_results ++
        [{ tool_name := paramGetD step "function" (.vstr "add_values")
           input_params := [("val1", .num a), ("val2", .num 0)]
           output := .vnone
           success := false
           error_message := some "Error: Division by zero is not allowed"
           execution_time_ms := 0 }] ∧
    (execStep lookup acc step).final_value = acc.final_value := by
  intro lookup acc step rf a hstep hres hdb hv1 hv2
  have hE : isErrorString (.vstr "Error: Division by zero is not allowed") = true := rfl
  rcases rf with _ | ⟨p, rest⟩
  · simp [dget] at hv1
  · simp [execStep, hstep, hres, hdb, hv1, hv2, truthyOpt, Value.truthy, optV,
      Value.get, asNum, applyMathTool, divide_values, errorText, hE]

/-- C3 witness: the concrete divide step against the cached item
`{val1: 10, val2: 0}`. -/
theorem C3_divide_by_zero_records_failure_witness :
    (execStep (fun _ _ => .ok none) c3acc c3step).tool_results
      = [{ tool_name := paramGetD c3step "function" (.vstr "add_values")
           input_params := [("val1", .num 10), ("val2", .num 0)]
           output := .vnone
           success := false
           error_message := some "Error: Division by zero is not allowed"
           execution_time_ms := 0 }] ∧
    (execStep (fun _ _ => .ok none) c3acc c3step).final_value = c3acc.final_value := by
  have h := C3_divide_by_zero_records_failure (fun _ _ => .ok none)
    c3acc c3step [("val1", .num 10), ("val2", .num 0)] 10 rfl rfl rfl rfl rfl
  exact h

/-- C9: an `ExecuteOperation` step whose `operation`/`function` parameters
resolve to no registered tool contributes no `ToolCallResult` and no
executed step number (and touches neither the cached item nor the final
value); consequently, on a plan whose lookup step succeeds, the execution
result is `success = true` with `final_value = None` and only the lookup
step recorded. -/
theorem C9_unknown_operation_skipped :
    (∀ (lookup : Value → Value → Except String (Option Value))
      (acc : ExecAcc) (step : PlanStep),
      step.step_type = .executeFunction →
      resolveTool step = none →
      (execStep lookup acc step).tool_results = acc.tool_results ∧
      (execStep lookup acc step).executed_steps = acc.executed_steps ∧
      (execStep lookup acc step).db_item = acc.db_item ∧
      (execStep lookup acc step).final_value = acc.final_value) ∧
    (execution_node_result c9lookup c9plan).success = true ∧
    (execution_node_result c9lookup c9plan).final_value = .vnone ∧
    (execution_node_result c9lookup c9plan).executed_steps = [1] ∧
    (execution_node_result c9lookup c9plan).tool_results.length = 1 := by
  refine ⟨?_, rfl, rfl, rfl, rfl⟩
  intro lookup acc step hstep hres
  simp [execStep, hstep, hres]

/-- C9 witness: the general skip property applied to the concrete unknown
step of `c9plan`. -/
theorem C9_unknown_operation_skipped_witness :
    (execStep c9lookup initExecAcc
      { step_number := 2
        step_type := .executeFunction
        description := "Perform modulo operation on val1 and val2"
        parameters := [("operation", .vstr "modulo"), ("function", .vstr "mod_values")]
        depends_on := [1] }).tool_results = [] ∧
    (execStep c9lookup initExecAcc
      { step_number := 2
        step_type := .executeFunction
        description := "Perform modulo operation on val1 and val2"
        parameters := [("operation", .vstr "modulo"), ("function", .vstr "mod_values")]
        depends_on := [1] }).executed_steps = [] := by
  have h := C9_unknown_operation_skipped.1 c9lookup initExecAcc
    { step_number := 2
      step_type := .executeFunction
      description := "Perform modulo operation on val1 and val2"
      parameters := [("operation", .vstr "modulo"), ("function", .vstr "mod_values")]
      depends_on := [1] } rfl rfl
  exact ⟨h.1, h.2.1⟩

/-- One loop iteration either leaves `executed_steps` unchanged or appends
exactly the current step's number, and the latter only for `QueryData` or
`ExecuteOperation` steps. -/
lemma execStep_executed_delta (lookup : Value → Value → Except String (Option Value))
    (acc : ExecAcc) (step : PlanStep) :
    (execStep lookup acc step).executed_steps = acc.executed_steps ∨
    ((execStep lookup acc step).executed_steps
        = acc.executed_steps ++ [step.step_number] ∧
      (step.step_type = .queryDatabase ∨ step.step_type = .executeFunction)) := by
  rcases step with ⟨n, st, d, params, dep⟩
  cases st with
  | queryDatabase =>
    right
    refine ⟨?_, Or.inl rfl⟩
    dsimp only [execStep]
    repeat' split
    all_goals rfl
  | executeFunction =>
    dsimp only [execStep]
    split
    · left; rfl
    · split
      · right
        refine ⟨?_, Or.inr rfl⟩
        repeat' split
        all_goals rfl
      · left; rfl
  | verifyResult => left; rfl
  | formatResponse => left; rfl

/-- Running the loop appends to `executed_steps` a sublist of the processed
steps' numbers, each belonging to a `QueryData` or `ExecuteOperation`
step. -/
lemma runSteps_executed (lookup : Value → Value → Except String (Option Value))
    (steps : List PlanStep) :
    ∀ acc : ExecAcc,
    ∃ t, (runSteps lookup steps acc).executed_steps = acc.executed_steps ++ t ∧
      List.Sublist t (steps.map fun s => s.step_number) ∧
      ∀ n ∈ t, ∃ s, s ∈ steps ∧ s.step_number = n ∧
        (s.step_type = .queryDatabase ∨ s.step_type = .executeFunction) := by
  induction steps with
  | nil =>
    intro acc
    exact ⟨[], by simp [runSteps], List.nil_sublist _, by simp⟩
  | cons step rest ih =>
    intro acc
    rcases ih (execStep lookup acc step) with ⟨t', h1, h2, h3⟩
    rcases execStep_executed_delta lookup acc step with h | ⟨h, hty⟩
    · refine ⟨t', ?_, h2.cons _, ?_⟩
      · rw [runSteps, h1, h]
      · intro n hn
        rcases h3 n hn with ⟨s, hs, hnum, hsty⟩
        exact ⟨s, List.mem_cons_of_mem _ hs, hnum, hsty⟩
    · refine ⟨step.step_number :: t', ?_, h2.cons₂ _, ?_⟩
      · rw [runSteps, h1, h]
        simp
      · intro n hn
        rcases List.mem_cons.mp hn with hn | hn
        · exact ⟨step, List.mem_cons_self _ _, hn.symm, hty⟩
        · rcases h3 n hn with ⟨s, hs, hnum, hsty⟩
          exact ⟨s, List.mem_cons_of_mem _ hs, hnum, hsty⟩

/-- C10: for every plan and every lookup collaborator, the execution
result's `executed_steps` is a subsequence of the plan's step numbers in
plan order, and every recorded number belongs to a `QueryData` or
`ExecuteOperation` step (never to `VerifyResult` or `FormatResponse`). -/
theorem C10_executed_steps_invariant :
    ∀ (lookup : Value → Value → Except String (Option Value)) (plan : Plan),
    List.Sublist (execution_node_result lookup plan).executed_steps
      (plan.steps.map fun s => s.step_number) ∧
    ∀ n ∈ (execution_node_result lookup plan).executed_steps,
      ∃ s, s ∈ plan.steps ∧ s.step_number = n ∧
        (s.step_type = .queryDatabase ∨ s.step_type = .executeFunction) := by
  intro lookup plan
  rcases runSteps_executed lookup plan.steps initExecAcc with ⟨t, h1, h2, h3⟩
  have he : (execution_node_result lookup plan).executed_steps = t := by
    simp only [execution_node_result]
    rw [h1]
    rfl
  rw [he]
  exact ⟨h2, h3⟩

/-- C10 witness: on the concrete two-step plan, `executed_steps = [1]` is a
subsequence of `[1, 2]` and its only member names the `QueryData` step. -/
theorem C10_executed_steps_invariant_witness :
    List.Sublist (execution_node_result c9lookup c9plan).executed_steps
      (c9plan.steps.map fun s => s.step_number) ∧
    ∃ s, s ∈ c9plan.steps ∧ s.step_number = 1 ∧
      (s.step_type = .queryDatabase ∨ s.step_type = .executeFunction) := by
  refine ⟨(C10_executed_steps_invariant c9lookup c9plan).1, ?_⟩
  exact (C10_executed_steps_invariant c9lookup c9plan).2 1
    (by rw [show (execution_node_result c9lookup c9plan).executed_steps = [1] from rfl]
        exact List.mem_singleton.mpr rfl)

/-! ## Claims about the planning stage -/

/-- C6: whenever the primary planning path fails — the text generator is
absent, raises, or yields unparsable output, i.e. the `try` block's outcome
is an error — the orchestrator returns (never fails, given the always-present
request keys) the deterministic fallback plan: four steps, in order
`QueryData`, `ExecuteOperation`, `VerifyResult`, `FormatResponse`, numbered
`1..4`, whose `QueryData` parameters are the request's own partition and
sort keys, and whose declared operation is the requested one with `add` as
the default when the request specifies none. -/
theorem C6_fallback_plan_deterministic :
    ∀ (s : AgentState) (e : String) (pk sk : Value),
    dget s.input_params "partition_key" = some pk →
    dget s.input_params "sort_key" = some sk →
    (orchestrator_node (.error e) s).map
        (fun u => (u.current_step,
          u.plan.map fun fp =>
            (fp.steps.map fun st => st.step_type,
             fp.steps.map fun st => st.step_number,
             fp.steps.head?.map fun st => st.parameters,
             fp.steps.map fun st => dget st.parameters "operation")))
      = .ok ("orchestrator_complete",
          some ([.queryDatabase, .executeFunction, .verifyResult, .formatResponse],
            [1, 2, 3, 4],
            some [("pk", pk), ("sk", sk)],
            [none,
             some ((dget s.input_params "operation").getD (.vstr "add")),
             some ((dget s.input_params "operation").getD (.vstr "add")),
             some ((dget s.input_params "operation").getD (.vstr "add"))])) := by
  intro s e pk sk hpk hsk
  cases hop : dget s.input_params "operation" <;>
    simp only [orchestrator_node, create_fallback_plan, hpk, hsk, hop] <;>
    simp [dget, Except.map]

/-- C6 witness: a failing text-generator attempt on the concrete request
yields the four-step fallback plan with the request's own keys and the
requested `multiply` operation. -/
theorem C6_fallback_plan_deterministic_witness :
    (orchestrator_node (.error "LLM timeout") c6state).map
        (fun u => (u.current_step,
          u.plan.map fun fp =>
            (fp.steps.map fun st => st.step_type,
             fp.steps.map fun st => st.step_number,
             fp.steps.head?.map fun st => st.parameters,
             fp.steps.map fun st => dget st.parameters "operation")))
      = .ok ("orchestrator_complete",
          some ([.queryDatabase, .executeFunction, .verifyResult, .formatResponse],
            [1, 2, 3, 4],
            some [("pk", .vstr "PAIR#abc"), ("sk", .vstr "DIRECT")],
            [none, some (.vstr "multiply"), some (.vstr "multiply"),
             some (.vstr "multiply")])) :=
  C6_fallback_plan_deterministic c6state "LLM timeout"
    (.vstr "PAIR#abc") (.vstr "DIRECT") rfl rfl

/-! ## Claims about the response stage -/

/-- C8: evaluation of `format_json` at the inputs of the repository's own
`test_format_subtraction` test: the `add`, `multiply` and `divide` symbols
are `+`, `*`, `/` as claimed, but for `subtract` the symbol dict has no
entry and `.get(operation, operation)` falls back to the word `subtract` —
the expression is `"100 subtract 42 = 58"`, not `"100 - 42 = 58"` (the
test asserts a `-` must occur, so the test fails on the code). -/
theorem C8_expression_symbols :
    ((optV ((format_json 42 58 100 "add" true "OK").get "calculation")).get
        "expression") = some (.vstr "42 + 58 = 100") ∧
    ((optV ((format_json 6 7 42 "multiply" true "OK").get "calculation")).get
        "expression") = some (.vstr "6 * 7 = 42") ∧
    ((optV ((format_json 100 4 25 "divide" true "OK").get "calculation")).get
        "expression") = some (.vstr "100 / 4 = 25") ∧
    ((optV ((format_json 100 42 58 "subtract" true "OK").get "calculation")).get
        "expression") = some (.vstr "100 subtract 42 = 58") ∧
    ("100 subtract 42 = 58" ≠ "100 - 42 = 58") := by
  refine ⟨rfl, rfl, rfl, rfl, ?_⟩
  decide

/-- C7: whenever the response node runs with no pending error, all three of
plan/execution/verification present, a successful lookup whose item carries
numeric operands, a successful numeric arithmetic result, and a resolved
operation that is a string (which is the case in every run that produces a
`FormattedResponse` at all — a non-string operation makes the node raise
before building one), the `data` map carries all six contract keys and its
`verification_status` is the overall status's string value, which ranges
over `"passed"`, `"failed"`, `"skipped"`. -/
theorem C7_response_data_contract :
    ∀ (request_id : String) (p : Plan) (er : ExecutionResult)
      (vr : VerificationResult) (rf : List (String × Value)) (op0 : Value)
      (a b c : ℚ) (opStr : String),
    resultScan er.tool_results = (some (.record rf), some (.num c), op0) →
    dget rf "val1" = some (.num a) →
    dget rf "val2" = some (.num b) →
    asStr (planOperationOverride p.steps op0) = some opStr →
    ((response_node request_id (some p) (some er) (some vr) none).map
      (fun upd =>
        (dget upd.formatted_response.data "val1",
         dget upd.formatted_response.data "val2",
         dget upd.formatted_response.data "result",
         dget upd.formatted_response.data "operation",
         (dget upd.formatted_response.data "expression").isSome,
         dget upd.formatted_response.data "verification_status"))
      = .ok (some (.num a), some (.num b), some (.num c),
          some (planOperationOverride p.steps op0), true,
          some (.vstr vr.overall_status.value))) ∧
    (vr.overall_status.value = "passed" ∨ vr.overall_status.value = "failed" ∨
      vr.overall_status.value = "skipped") := by
  intro request_id p er vr rf op0 a b c opStr hscan hv1 hv2 hop
  constructor
  · rcases rf with _ | ⟨q, rest⟩
    · simp [dget] at hv1
    · simp only [dget] at hv1 hv2
      simp [response_node, hscan, truthyOpt, Value.truthy, optV, Value.get, dget,
        hv1, hv2, hop, invokeFormatJson, asNum, format_json, Except.map]
  · cases h : vr.overall_status <;> simp [VerificationStatus.value]

/-- C7 witness: the contract holds on the concrete happy-path state
(`42 + 58 = 100`, verification passed). -/
theorem C7_response_data_contract_witness :
    ((response_node "req-7" (some emptyPlan)
        (some (calcExecutionResult "add_values" 42 58 100)) (some c7vr) none).map
      (fun upd =>
        (dget upd.formatted_response.data "val1",
         dget upd.formatted_response.data "val2",
         dget upd.formatted_response.data "result",
         dget upd.formatted_response.data "operation",
         (dget upd.formatted_response.data "expression").isSome,
         dget upd.formatted_response.data "verification_status"))
      = .ok (some (.num 42), some (.num 58), some (.num 100),
          some (planOperationOverride emptyPlan.steps (.vstr "add")), true,
          some (.vstr c7vr.overall_status.value))) ∧
    (c7vr.overall_status.value = "passed" ∨ c7vr.overall_status.value = "failed" ∨
      c7vr.overall_status.value = "skipped") :=
  C7_response_data_contract "req-7" emptyPlan
    (calcExecutionResult "add_values" 42 58 100) c7vr
    [("val1", .num 42), ("val2", .num 58)] (.vstr "add") 42 58 100 "add"
    rfl rfl rfl rfl

/-! ## Claims about the pipeline controller -/

/-- The execution node never touches `retry_count`: its returned update
carries only `execution_result`, `current_step` (and `error` on the
missing-plan path), and LangGraph merges only returned keys. -/
lemma execution_node_retry_count (lookup : Value → Value → Except String (Option Value))
    (s : AgentState) : (execution_node lookup s).retry_count = s.retry_count := by
  cases hp : s.plan <;> simp [execution_node, hp]

/-- The execution node never touches `plan`. -/
lemma execution_node_plan (lookup : Value → Value → Except String (Option Value))
    (s : AgentState) : (execution_node lookup s).plan = s.plan := by
  cases hp : s.plan <;> simp [execution_node, hp]

/-- C1: in a run whose execution fails on every attempt, starting from the
initial `retry_count = 0`, the counter still reads `0` after every number
of retries — no node ever writes it — so `route_after_execution` answers
`retry` on **every** failure and the error edge guarded by
`retry_count ≥ 3` is never taken: the `Execute → Execute` loop does not
terminate through the router. -/
theorem C1_retry_loop_never_reaches_error :
    ∀ (lookup : Value → Value → Except String (Option Value)) (s0 : AgentState),
    s0.retry_count = 0 →
    (∀ n, ∃ er, (retryLoopState lookup s0 n).execution_result = some er ∧
      er.success = false) →
    ∀ n, (retryLoopState lookup s0 n).retry_count = 0 ∧
      route_after_execution (retryLoopState lookup s0 n) = .retry := by
  intro lookup s0 h0 hfail n
  induction n with
  | zero =>
    have hrc : (retryLoopState lookup s0 0).retry_count = 0 := by
      rw [retryLoopState, execution_node_retry_count, h0]
    refine ⟨hrc, ?_⟩
    rcases hfail 0 with ⟨er, he, hs⟩
    simp [route_after_execution, he, hs, hrc]
  | succ n ih =>
    have hrc : (retryLoopState lookup s0 (n + 1)).retry_count = 0 := by
      rw [retryLoopState, execution_node_retry_count]
      exact ih.1
    refine ⟨hrc, ?_⟩
    rcases hfail (n + 1) with ⟨er, he, hs⟩
    simp [route_after_execution, he, hs, hrc]

/-- C1 witness: with the always-failing lookup, even after the 5th retry
the router still answers `retry` — the claimed error path on the 4th
failure is never taken. -/
theorem C1_retry_loop_never_reaches_error_witness :
    (retryLoopState c1lookup c1state 5).retry_count = 0 ∧
    route_after_execution (retryLoopState c1lookup c1state 5) = .retry := by
  have hplan : ∀ n, (retryLoopState c1lookup c1state n).plan = some c9plan := by
    intro n
    induction n with
    | zero => rw [retryLoopState, execution_node_plan]; rfl
    | succ n ih => rw [retryLoopState, execution_node_plan]; exact ih
  have hfail : ∀ n, ∃ er, (retryLoopState c1lookup c1state n).execution_result = some er ∧
      er.success = false := by
    intro n
    refine ⟨execution_node_result c1lookup c9plan, ?_, rfl⟩
    cases n with
    | zero => rfl
    | succ n => rw [retryLoopState]; simp [execution_node, hplan n]
  exact C1_retry_loop_never_reaches_error c1lookup c1state rfl hfail 5

end DeepThought
